import Mathlib

/-!
Verification of the minimio event-notification reactor: a shallow embedding of
the two platform backends (the kqueue readiness backend of `src/macos.rs` and
the I/O-completion-port backend of `src/windows.rs`) together with theorems
settling the specification's claims about them.  The kernel is modelled as an
oracle: every raw syscall return value (and every record the kernel would write
into caller memory) is an explicit parameter of the embedded function.
-/

set_option linter.unusedVariables false

namespace Minimio

/-- An `io::Error` value as the sources construct them: either the WouldBlock
kind (`io::Error::from(io::ErrorKind::WouldBlock)`) or an OS error carrying the
platform's last error code (`io::Error::last_os_error()`). -/
inductive IOErr where
  | wouldBlock : IOErr
  | osError : Int → IOErr
deriving DecidableEq, Repr

/-- Outcome of a Rust call that can return `Ok`, return an OS error, or diverge
through a panicking macro (the readiness backend's write branch executes the
`unimplemented` panic macro). -/
inductive Outcome where
  | ok : Outcome
  | osErr : Outcome
  | panicked : Outcome
deriving DecidableEq, Repr

namespace Macos

/-- `ffi::EVFILT_READ: i16 = -1` (src/macos.rs:124). -/
def EVFILT_READ : Int := -1

/-- `ffi::EV_ADD: u16 = 0x1` (src/macos.rs:125). -/
def EV_ADD : Nat := 0x1

/-- `ffi::EV_ENABLE: u16 = 0x4` (src/macos.rs:126). -/
def EV_ENABLE : Nat := 0x4

/-- `ffi::EV_ONESHOT: u16 = 0x10` (src/macos.rs:127). -/
def EV_ONESHOT : Nat := 0x10

/-- The `ffi::Kevent` record (src/macos.rs:186-195); unsigned machine fields
become `Nat`, the signed `filter: i16` and `data: i64` become `Int`. -/
structure Kevent where
  ident : Nat
  filter : Int
  flags : Nat
  fflags : Nat
  data : Int
  udata : Nat
deriving DecidableEq, Repr

/-- `ffi::Event::new_read_event(fd, id)` (src/macos.rs:131-140): the change
record for a one-shot read watch, with the token in `udata`. -/
def Kevent.new_read_event (fd : Nat) (id : Nat) : Kevent :=
  { ident := fd
    filter := EVFILT_READ
    flags := EV_ADD ||| EV_ENABLE ||| EV_ONESHOT
    fflags := 0
    data := 0
    udata := id }

/-- `ffi::Event::zero()` (src/macos.rs:142-151). -/
def Kevent.zero : Kevent :=
  { ident := 0, filter := 0, flags := 0, fflags := 0, data := 0, udata := 0 }

/-- Modelled from the spec: the `Interests` type lives in `crate::interests`,
which is not among the provided source files.  Spec §4.2 describes it as a set
of flags drawn from {Readable, Writable} with predicates `is_readable()` and
`is_writable()`. -/
structure Interests where
  readable : Bool
  writable : Bool
deriving DecidableEq, Repr

/-- Spec §4.2 predicate `is_readable()`. -/
def Interests.is_readable (i : Interests) : Bool := i.readable

/-- Spec §4.2 predicate `is_writable()`. -/
def Interests.is_writable (i : Interests) : Bool := i.writable

/-- Modelled from the spec (and the tests of src/macos.rs): the `Events` buffer
comes from the crate root, which is not among the provided source files; the
tests build it as a `Vec<Event>` (`vec![Event::zero()]`, src/macos.rs:244) and
`select` uses `len`, `clear` and `set_len` on it.  Modelled as a Rust `Vec`:
`backing` is the allocated storage (its length plays the role of the capacity)
and `len` is the observable length, with `len ≤ backing.length` the `Vec`
invariant. -/
structure Events where
  backing : List Kevent
  len : Nat
deriving DecidableEq, Repr

/-- `Vec::clear`: resets the observable length to zero; the storage is kept. -/
def Events.clear (e : Events) : Events := { e with len := 0 }

/-- `Vec::set_len(n)` (the unsafe call at src/macos.rs:40): sets the observable
length without touching the storage. -/
def Events.set_len (e : Events) (n : Nat) : Events := { e with len := n }

/-- The observable contents of the buffer: its first `len` stored entries. -/
def Events.view (e : Events) : List Kevent := e.backing.take e.len

/-- The kernel writing `fired` records into the front of the buffer storage
(through the raw pointer `el.as_mut_ptr()`). -/
def writeFront (fired backing : List Kevent) : List Kevent :=
  fired ++ backing.drop fired.length

/-- The kernel's behavior during one `kevent` call, as an oracle: either the
raw call fails (returns a negative value) or the kernel writes a list of fired
records into the event-list storage and returns their count. -/
inductive KernelWait where
  | fail : KernelWait
  | fires : List Kevent → KernelWait
deriving DecidableEq, Repr

/-- What one embedded `ffi::syscall_kevent` call produced: the `io::Result`,
the event-list buffer after any kernel writes, and the raw timeout value that
was handed to the C `kevent` (the source computes it as `timeout.unwrap_or(0)`,
src/macos.rs:172; the C parameter is a timespec pointer, so 0 is the null
pointer, i.e. block indefinitely). -/
structure KeventCall where
  result : Except Unit Nat
  el : Events
  rawTimeout : Nat
deriving Repr

/-- Shallow embedding of `ffi::syscall_kevent` (src/macos.rs:162-182).  `el` is
the event-list buffer, `n_events` the maximum count passed to the kernel
(which therefore writes at most `n_events` records — the guarantee the source
comment at src/macos.rs:37-39 relies on), `timeout` the `Option` argument and
`k` the kernel oracle. -/
def syscall_kevent (el : Events) (n_events : Nat) (timeout : Option Nat)
    (k : KernelWait) : KeventCall :=
  match k with
  | KernelWait.fail =>
      { result := Except.error (), el := el, rawTimeout := timeout.getD 0 }
  | KernelWait.fires fired =>
      { result := Except.ok fired.length
        el := { el with backing := writeFront fired el.backing }
        rawTimeout := timeout.getD 0 }

/-- What one embedded `Selector::select` call produced: the state of the
caller's buffer afterwards, the `io::Result`, the `Option` timeout the selector
passed down to `syscall_kevent`, and the raw timeout value that reached the
kernel. -/
structure SelectCall where
  buffer : Events
  result : Except Unit Unit
  timeoutArg : Option Nat
  rawTimeout : Nat
deriving Repr

/-- Shallow embedding of `Selector::select` (src/macos.rs:31-42): captures
`n_events = events.len()`, clears the buffer, calls `syscall_kevent` with an
explicit `None` timeout, and on success calls `set_len` with the
kernel-reported count. -/
def select (ev : Events) (k : KernelWait) : SelectCall :=
  let n_events := ev.len
  let cleared := ev.clear
  let call := syscall_kevent cleared n_events none k
  match call.result with
  | Except.error _ =>
      { buffer := call.el, result := Except.error ()
        timeoutArg := none, rawTimeout := call.rawTimeout }
  | Except.ok n =>
      { buffer := call.el.set_len n, result := Except.ok ()
        timeoutArg := none, rawTimeout := call.rawTimeout }

/-- Shallow embedding of `Selector::register` (src/macos.rs:44-60).  If the
interests are readable, one changelist holding the single read-watch record is
submitted through `syscall_kevent` (with the empty event list, `n_events = 0`
and `None` timeout); a failure there propagates through `?`.  Afterwards, if
the interests are writable the `unimplemented` panic macro runs.  Returns the
call's outcome together with the list of changelists submitted to the kernel
(one entry per `kevent` call made). -/
def register (fd id : Nat) (interests : Interests) (k : KernelWait) :
    Outcome × List (List Kevent) :=
  if interests.is_readable then
    let kev := Kevent.new_read_event fd id
    let call := syscall_kevent { backing := [], len := 0 } 0 none k
    match call.result with
    | Except.error _ => (Outcome.osErr, [[kev]])
    | Except.ok _ =>
        if interests.is_writable then (Outcome.panicked, [[kev]])
        else (Outcome.ok, [[kev]])
  else if interests.is_writable then (Outcome.panicked, [])
  else (Outcome.ok, [])

end Macos

namespace Windows

/-- `ffi::WSA_IO_PENDING: i32 = 997` (src/windows.rs:213). -/
def WSA_IO_PENDING : Int := 997

/-- `ffi::INFINITE: u32 = 0xFFFFFFFF` (src/windows.rs:218). -/
def INFINITE : Nat := 0xFFFFFFFF

/-- The observable fields of `ffi::OVERLAPPED_ENTRY` (src/windows.rs:150-155):
the completion key carrying the token and the transferred byte count (the
kernel-internal pointer fields are irrelevant to the claims). -/
structure OVERLAPPED_ENTRY where
  lp_completion_key : Nat
  bytes_transferred : Nat
deriving DecidableEq, Repr

/-- Shallow embedding of `ffi::get_queued_completion_status`
(src/windows.rs:322-336).  `ul_count` is the maximum number of entries the
kernel may remove; `res` is the oracle for the raw
`GetQueuedCompletionStatusEx` return and `nRemoved` for the count the kernel
wrote into `ul_num_entries_removed` (initialized to 0, written only by the
kernel).  Returns the `io::Result` (the source treats a nonzero raw return as
the error case) together with the raw timeout handed to the kernel, computed
as `timeout.unwrap_or(INFINITE)`. -/
def get_queued_completion_status (ul_count : Nat) (timeout : Option Nat)
    (res : Int) (nRemoved : Nat) : Except Unit Nat × Nat :=
  (if res ≠ 0 then Except.error () else Except.ok nRemoved, timeout.getD INFINITE)

/-- Outcome of the completion backend's `select`: a returned view over the
removed entries, an OS error, or a panic (the slice expression
`&mut events[..removed]` faults when `removed` exceeds the vector's length). -/
inductive SelectOutcome where
  | ok : List OVERLAPPED_ENTRY → SelectOutcome
  | osErr : SelectOutcome
  | panicked : SelectOutcome
deriving DecidableEq, Repr

/-- Shallow embedding of the completion backend's `Selector::select`
(src/windows.rs:89-108).  The caller's `events` vector is cleared first; note
that the source computes `ul_count = events.len()` after that clear, so the
maximum count handed to the kernel is the cleared vector's length.  The kernel
oracle is `(res, nRemoved)` as in `get_queued_completion_status`; no `set_len`
is performed, so the vector's observable length stays 0 and the slice
`&mut events[..removed]` is taken over the cleared vector.  Returns the
outcome together with the `ul_count` value that was passed to the kernel. -/
def select (events : List OVERLAPPED_ENTRY) (res : Int) (nRemoved : Nat) :
    SelectOutcome × Nat :=
  let cleared : List OVERLAPPED_ENTRY := []
  let ul_count := cleared.length
  match (get_queued_completion_status ul_count none res nRemoved).1 with
  | Except.error _ => (SelectOutcome.osErr, ul_count)
  | Except.ok removed =>
      if removed ≤ cleared.length then (SelectOutcome.ok (cleared.take removed), ul_count)
      else (SelectOutcome.panicked, ul_count)

/-- Shallow embedding of `ffi::create_soc_read_event` (src/windows.rs:276-297).
`res` is the oracle for the raw `WSARecv` return and `lastErr` for the error
code the platform's last-error slot holds (read by `WSAGetLastError` and
carried by `io::Error::last_os_error`). -/
def create_soc_read_event (res : Int) (lastErr : Int) : Except IOErr Unit :=
  if res ≠ 0 then
    if lastErr = WSA_IO_PENDING then Except.ok ()
    else Except.error (IOErr.osError lastErr)
  else Except.ok ()

/-- A kernel-visible action the completion backend could perform while issuing
a read: associating a socket with the completion port, or issuing an
asynchronous `WSARecv` on it. -/
inductive KernelAction where
  | associatePort (soc : Nat) : KernelAction
  | wsaRecvIssue (soc : Nat) : KernelAction
deriving DecidableEq, Repr

/-- Shallow embedding of `Selector::register_soc_read_event` (src/windows.rs:85):
the source is `pub fn register_soc_read_event<T>(&mut self, soc: RawSocket) {}` —
an empty body taking no token and no buffer.  The embedding records the list of
kernel actions the call performs. -/
def register_soc_read_event (soc : Nat) : List KernelAction := []

/-- `TcpReadiness` (src/windows.rs:20-23). -/
inductive TcpReadiness where
  | Ready : TcpReadiness
  | NotReady : TcpReadiness
deriving DecidableEq, Repr

/-- Shallow embedding of `TcpStream::read_to_end` (src/windows.rs:50-61).
`innerRes` is the oracle for the `io::Result` of `self.inner.read_to_end(buff)`
and `buffAfter` for the contents of `buff` after that inner call ran.  The
source matches on `&self.status` with the bare identifiers `Ready` and
`NotReady` as patterns; since the variants are not imported into scope, Rust
treats `Ready` as an identifier binding that matches every status, so the
second arm (whose body is `return Err(WouldBlock)`) is unreachable.  The
match's value is discarded by the trailing semicolon and the function falls
through to `Ok(buff.len())`.  The embedded match below uses the same binding
pattern. -/
def read_to_end (status : TcpReadiness) (innerRes : Except IOErr Nat)
    (buffAfter : List Nat) : Except IOErr Nat × List Nat :=
  match status with
  | _Ready =>
      let _discarded := innerRes
      (Except.ok buffAfter.length, buffAfter)

end Windows

/-! ## Theorems settling the claims -/

/-- C1 counterexample: calling the readiness backend's `register` with the
empty interest set does not fail with an invalid-argument error — it returns
`Ok` and submits no changelist to the kernel (no kernel state is modified). -/
theorem register_empty_interests_cx :
    Macos.register 0 0 { readable := false, writable := false }
      (Macos.KernelWait.fires []) = (Outcome.ok, []) := by
  rfl

/-- C1 (amended): assuming the `kevent` submission succeeds, the readiness
backend's `register` returns `Ok` iff the interest set does not request
Writable; in particular the empty interest set succeeds and submits nothing to
the kernel (there is no empty-set validation). -/
theorem register_ok_iff_not_writable (fd id : Nat) (i : Macos.Interests)
    (fired : List Macos.Kevent) :
    ((Macos.register fd id i (Macos.KernelWait.fires fired)).1 = Outcome.ok
      ↔ i.is_writable = false)
    ∧ Macos.register fd id { readable := false, writable := false }
        (Macos.KernelWait.fires fired) = (Outcome.ok, []) := by
  obtain ⟨r, w⟩ := i
  cases r <;> cases w <;>
    simp [Macos.register, Macos.syscall_kevent, Macos.Interests.is_readable,
      Macos.Interests.is_writable]

/-- C2 counterexample: requesting Writable on the readiness backend does not
produce an unsupported-operation error value — the call panics (the write
branch executes the `unimplemented` panic macro). -/
theorem register_writable_panics_cx :
    (Macos.register 0 0 { readable := false, writable := true }
      (Macos.KernelWait.fires [])).1 = Outcome.panicked := by
  rfl

/-- C2 (amended): for every interest set with `is_writable()` true, the
readiness backend's `register` panics (diverges through the `unimplemented`
panic macro) rather than returning a recoverable error value, whenever the
read-watch submission (made first when Readable is also set) succeeds. -/
theorem register_writable_panicked (fd id : Nat) (readable : Bool)
    (fired : List Macos.Kevent) :
    (Macos.register fd id { readable := readable, writable := true }
      (Macos.KernelWait.fires fired)).1 = Outcome.panicked := by
  cases readable <;>
    simp [Macos.register, Macos.syscall_kevent, Macos.Interests.is_readable,
      Macos.Interests.is_writable]

/-- C3: on every successful `select` of the readiness backend, the buffer is
cleared and refilled so that its observable contents are exactly the records
the kernel populated: the observable length equals the kernel-reported count,
stays within the buffer's capacity, and the storage is neither grown nor
shrunk.  The hypotheses are the `Vec` invariant (`len ≤ capacity`) and the
kernel's guarantee of writing at most `n_events` records. -/
theorem select_success_exact_view (ev : Macos.Events) (fired : List Macos.Kevent)
    (hcap : ev.len ≤ ev.backing.length) (hk : fired.length ≤ ev.len) :
    (Macos.select ev (Macos.KernelWait.fires fired)).result = Except.ok ()
    ∧ (Macos.select ev (Macos.KernelWait.fires fired)).buffer.view = fired
    ∧ (Macos.select ev (Macos.KernelWait.fires fired)).buffer.len = fired.length
    ∧ (Macos.select ev (Macos.KernelWait.fires fired)).buffer.len ≤ ev.backing.length
    ∧ (Macos.select ev (Macos.KernelWait.fires fired)).buffer.backing.length
        = ev.backing.length := by
  have hlen : fired.length ≤ ev.backing.length := le_trans hk hcap
  refine ⟨rfl, ?_, rfl, ?_, ?_⟩
  · show (Macos.writeFront fired ev.backing).take fired.length = fired
    exact List.take_left fired (ev.backing.drop fired.length)
  · exact hlen
  · show (Macos.writeFront fired ev.backing).length = ev.backing.length
    simp [Macos.writeFront]
    omega

/-- C3 witness: a concrete successful `select` on a two-slot buffer into which
the kernel delivers one fired record. -/
theorem select_success_exact_view_witness :
    (Macos.select { backing := [Macos.Kevent.zero, Macos.Kevent.zero], len := 2 }
        (Macos.KernelWait.fires [Macos.Kevent.new_read_event 3 7])).result = Except.ok ()
    ∧ (Macos.select { backing := [Macos.Kevent.zero, Macos.Kevent.zero], len := 2 }
        (Macos.KernelWait.fires [Macos.Kevent.new_read_event 3 7])).buffer.view
        = [Macos.Kevent.new_read_event 3 7]
    ∧ (Macos.select { backing := [Macos.Kevent.zero, Macos.Kevent.zero], len := 2 }
        (Macos.KernelWait.fires [Macos.Kevent.new_read_event 3 7])).buffer.len
        = [Macos.Kevent.new_read_event 3 7].length
    ∧ (Macos.select { backing := [Macos.Kevent.zero, Macos.Kevent.zero], len := 2 }
        (Macos.KernelWait.fires [Macos.Kevent.new_read_event 3 7])).buffer.len
        ≤ [Macos.Kevent.zero, Macos.Kevent.zero].length
    ∧ (Macos.select { backing := [Macos.Kevent.zero, Macos.Kevent.zero], len := 2 }
        (Macos.KernelWait.fires [Macos.Kevent.new_read_event 3 7])).buffer.backing.length
        = [Macos.Kevent.zero, Macos.Kevent.zero].length :=
  select_success_exact_view
    { backing := [Macos.Kevent.zero, Macos.Kevent.zero], len := 2 }
    [Macos.Kevent.new_read_event 3 7] (by decide) (by decide)

/-- Helper: the maximum entry count the completion backend's `select` hands to
the kernel is always 0, because the source computes `ul_count = events.len()`
only after clearing the vector. -/
theorem winselect_ulcount (events : List Windows.OVERLAPPED_ENTRY)
    (res : Int) (nRemoved : Nat) :
    (Windows.select events res nRemoved).2 = 0 := by
  by_cases h : res = 0 <;> by_cases h' : nRemoved = 0 <;>
    simp [Windows.select, Windows.get_queued_completion_status, h, h']

/-- C4: on every successful `select` of the completion backend in which the
kernel respects the stated maximum (`nRemoved ≤ ul_count`, the count handed to
`GetQueuedCompletionStatusEx`), the returned view holds exactly the
`nRemoved` entries the kernel removed, never exceeds that maximum, and the
slice construction never faults (the outcome is a view, not a panic). -/
theorem winselect_success_bounded_view (events : List Windows.OVERLAPPED_ENTRY)
    (res : Int) (nRemoved : Nat) (hres : res = 0)
    (hk : nRemoved ≤ (Windows.select events res nRemoved).2) :
    ∃ out, (Windows.select events res nRemoved).1 = Windows.SelectOutcome.ok out
      ∧ out.length = nRemoved
      ∧ out.length ≤ (Windows.select events res nRemoved).2 := by
  subst hres
  rw [winselect_ulcount] at hk
  have h0 : nRemoved = 0 := Nat.le_zero.mp hk
  subst h0
  exact ⟨[], by simp [Windows.select, Windows.get_queued_completion_status], rfl,
    Nat.zero_le _⟩

/-- C4 witness: the concrete successful call on an empty vector where the
kernel removes zero entries. -/
theorem winselect_success_bounded_view_witness :
    ∃ out, (Windows.select [] 0 0).1 = Windows.SelectOutcome.ok out
      ∧ out.length = 0
      ∧ out.length ≤ (Windows.select [] 0 0).2 :=
  winselect_success_bounded_view [] 0 0 rfl (by decide)

/-- C5: evaluating `Selector::register_soc_read_event` at a concrete socket
handle shows that it performs no kernel action at all — it neither associates
the handle with the completion port nor issues an asynchronous read (its body
is empty, and its signature takes no token and no buffer). -/
theorem register_soc_read_event_noop :
    Windows.register_soc_read_event 5 = ([] : List Windows.KernelAction) := by
  rfl

/-- C6: the read-issuance helper of the completion backend succeeds in exactly
two cases — the kernel reports the operation already complete (`WSARecv`
returned 0) or reports it pending (last error `WSA_IO_PENDING`) — and every
other outcome is an OS error carrying the platform's last error code. -/
theorem create_soc_read_event_cases (res lastErr : Int) :
    (Windows.create_soc_read_event res lastErr = Except.ok ()
      ↔ (res = 0 ∨ lastErr = Windows.WSA_IO_PENDING))
    ∧ (Windows.create_soc_read_event res lastErr = Except.ok ()
      ∨ Windows.create_soc_read_event res lastErr
          = Except.error (IOErr.osError lastErr)) := by
  by_cases h : res = 0 <;> by_cases h' : lastErr = Windows.WSA_IO_PENDING <;>
    simp [Windows.create_soc_read_event, h, h']

/-- C7 counterexample: a concrete `select` call of the readiness backend passes
`None` as the timeout argument down to `syscall_kevent`, which hands the kernel
the raw value 0 (the null timespec pointer: block indefinitely); no deadline
can ever be supplied, contradicting the claimed optional-timeout parameter. -/
theorem select_no_timeout_cx :
    (Macos.select { backing := [Macos.Kevent.zero], len := 1 }
        (Macos.KernelWait.fires [])).timeoutArg = none
    ∧ (Macos.select { backing := [Macos.Kevent.zero], len := 1 }
        (Macos.KernelWait.fires [])).rawTimeout = 0 := by
  exact ⟨rfl, rfl⟩

/-- C7 (amended): the readiness backend's `select` takes no timeout parameter;
every call passes `None` down to `syscall_kevent` and the kernel receives the
raw timeout 0 (block indefinitely), matching the source's own doc comment
"It never times out". -/
theorem select_always_blocks (ev : Macos.Events) (k : Macos.KernelWait) :
    (Macos.select ev k).timeoutArg = none
    ∧ (Macos.select ev k).rawTimeout = 0 := by
  cases k <;> simp [Macos.select, Macos.syscall_kevent]

/-- C8: registering a readable-only interest set submits exactly one
changelist holding exactly one change record, whose filter is the read filter,
whose flags are add, enable and one-shot, and whose `udata` field is the
caller-supplied token unchanged. -/
theorem register_read_watch (fd id : Nat) (k : Macos.KernelWait) :
    (Macos.register fd id { readable := true, writable := false } k).2
      = [[Macos.Kevent.new_read_event fd id]]
    ∧ (Macos.Kevent.new_read_event fd id).filter = Macos.EVFILT_READ
    ∧ (Macos.Kevent.new_read_event fd id).flags
        = (Macos.EV_ADD ||| Macos.EV_ENABLE ||| Macos.EV_ONESHOT)
    ∧ (Macos.Kevent.new_read_event fd id).udata = id := by
  refine ⟨?_, rfl, rfl, rfl⟩
  cases k <;>
    simp [Macos.register, Macos.syscall_kevent, Macos.Interests.is_readable,
      Macos.Interests.is_writable]

/-- C10: for an interest set requesting both Readable and Writable, the
readiness backend's `register` first submits the read-watch changelist to the
kernel and only then reaches the writable branch, so the kernel registration
state is modified even though the call never returns `Ok` — it either panics
(read submission succeeded) or returns the OS error (read submission failed).
The failure is not atomic. -/
theorem register_read_write_submits_then_fails (fd id : Nat) (k : Macos.KernelWait) :
    (Macos.register fd id { readable := true, writable := true } k).2
      = [[Macos.Kevent.new_read_event fd id]]
    ∧ ((Macos.register fd id { readable := true, writable := true } k).1
          = Outcome.panicked
        ∨ (Macos.register fd id { readable := true, writable := true } k).1
          = Outcome.osErr) := by
  cases k <;>
    simp [Macos.register, Macos.syscall_kevent, Macos.Interests.is_readable,
      Macos.Interests.is_writable]

/-- C9: on the completion backend, `TcpStream::read_to_end` returns
`Ok(buff.len())` for every stream state and every result of the underlying
read: the first match arm is an identifier binding that captures every status,
so the would-block branch is unreachable, and the inner read's `io::Result` is
discarded — even a failing inner read yields `Ok`. -/
theorem read_to_end_always_ok (status : Windows.TcpReadiness)
    (innerRes : Except IOErr Nat) (buffAfter : List Nat) :
    Windows.read_to_end status innerRes buffAfter
      = (Except.ok buffAfter.length, buffAfter) := by
  cases status <;> rfl

end Minimio
